import Mathlib

/-!
# Dream Cheeky Notifier Tool: a model of `main.c`

The command line tool parses three colour intensities and an optional fourth
argument, asks the HID manager for the attached devices, and writes an 8-byte
report (preceded, once, by an activation report) to every device whose vendor
and product identity is that of the notifier.

The program is embedded as pure functions.  Everything the operating system
decides (the result of opening the manager, the devices that are copied out of
it, the properties they carry, the result of every report write, and the bytes
found in an uninitialised array) is gathered in a `Host` value; everything the
program does to the outside world (calls into the HID library, lines printed,
exit status) is gathered in an `Outcome` value.
-/

namespace DreamCheeky

/-! ## C integer conversions -/

/-- Conversion of a `long` to `int` (32 bits, two's complement), as in
`(int)strtol ( ... )`. -/
def toInt (x : Int) : Int := (x + 2147483648) % 4294967296 - 2147483648

/-- Conversion of an `int` to `char` (signed, 8 bits, two's complement), as in
`char r = (int) ...`. -/
def toChar (x : Int) : Int := (x + 128) % 256 - 128

/-- Conversion of a `char` to `unsigned char`, as in `report[0] = r`. -/
def toUChar (x : Int) : Nat := (x % 256).toNat

/-! ## `strtol ( s, NULL, 10 )` -/

/-- Largest `long` (64 bits). -/
def LONG_MAX : Int := 9223372036854775807

/-- Smallest `long` (64 bits). -/
def LONG_MIN : Int := -9223372036854775808

/-- The characters `isspace` accepts in the C locale: space, `\t`, `\n`, `\v`,
`\f`, `\r`. -/
def isspace (c : Char) : Bool :=
  c.toNat = 32 || (9 ≤ c.toNat && c.toNat ≤ 13)

/-- Value of the longest prefix of decimal digits, accumulated from `acc`. -/
def digitsValue : List Char → Nat → Nat
  | [], acc => acc
  | c :: cs, acc =>
    if 48 ≤ c.toNat ∧ c.toNat ≤ 57 then digitsValue cs (acc * 10 + (c.toNat - 48)) else acc

/-- Base-10 `strtol` with a null end pointer: leading white space is skipped,
one optional sign is read, then the longest run of digits; no digits give 0 and
a value that does not fit a `long` is replaced by `LONG_MAX` or `LONG_MIN`. -/
def strtol (nptr : String) : Int :=
  match nptr.toList.dropWhile isspace with
  | [] => 0
  | c :: cs =>
    if c.toNat = 45 then max LONG_MIN (-(digitsValue cs 0 : Int))
    else if c.toNat = 43 then min LONG_MAX (digitsValue cs 0 : Int)
    else min LONG_MAX (digitsValue (c :: cs) 0 : Int)

/-! ## The HID library as seen by the program -/

/-- A Core Foundation object returned by a property lookup: a `CFNumber`, with
the value it yields when read as `kCFNumberSInt32Type`, or an object of any
other type (string, data, ...). -/
inductive CFType where
  | number (value : Int)
  | other
deriving DecidableEq, Repr

/-- The two property keys the program looks up. -/
inductive PropertyKey where
  | kIOHIDVendorIDKey
  | kIOHIDProductIDKey
deriving DecidableEq, Repr

/-- An attached HID device: the handle (`IOHIDDeviceRef`) and the two registry
properties the program reads; `none` is a property that is not there. -/
structure IOHIDDevice where
  ref : Nat
  vendorID : Option CFType
  productID : Option CFType
deriving DecidableEq, Repr

/-- The library call `IOHIDDeviceGetProperty`: the property, or `none` for a
null reference. -/
def IOHIDDeviceGetProperty (device : IOHIDDevice) : PropertyKey → Option CFType
  | .kIOHIDVendorIDKey => device.vendorID
  | .kIOHIDProductIDKey => device.productID

/-- The library call `CFNumberGetValue ( number, kCFNumberSInt32Type, outValue )`
on a number holding a 32-bit integer, as the HID registry keeps them: the value
is stored and the call reports success. -/
def CFNumberGetValue (value : Int) : Bool × Int := (true, value)

/-- The array `unsigned char report[8]`. -/
structure Report where
  b0 : Nat
  b1 : Nat
  b2 : Nat
  b3 : Nat
  b4 : Nat
  b5 : Nat
  b6 : Nat
  b7 : Nat
deriving DecidableEq, Repr

/-- The eight bytes handed to `IOHIDDeviceSetReport`. -/
def Report.bytes (report : Report) : List Nat :=
  [report.b0, report.b1, report.b2, report.b3, report.b4, report.b5, report.b6, report.b7]

/-- Keys of a matching dictionary. -/
inductive MatchingKey where
  | kIOHIDDeviceUsagePageKey
  | kIOHIDDeviceUsageKey
  | kIOHIDElementUsagePageKey
  | kIOHIDElementUsageKey
deriving DecidableEq, Repr

/-- The report types of the HID library. -/
inductive IOHIDReportType where
  | kIOHIDReportTypeInput
  | kIOHIDReportTypeOutput
  | kIOHIDReportTypeFeature
deriving DecidableEq, Repr

/-- A call into the HID library, with the arguments the program passes. -/
inductive Call where
  | managerCreate
  | managerSetDeviceMatching (matching : List (MatchingKey × Nat))
  | managerOpen
  | managerCopyDevices
  | deviceGetProperty (device : Nat) (key : PropertyKey)
  | deviceSetReport (device : Nat) (reportType : IOHIDReportType) (reportID : Nat)
      (report : List Nat) (reportLength : Nat)
deriving DecidableEq, Repr

/-- A line the program prints. -/
inductive Output where
  | usage
  | rangeError
  | skipping (device : Nat)
  | device (device : Nat)
deriving DecidableEq, Repr

/-- The two places where `main` calls `IOHIDDeviceSetReport`. -/
inductive WriteSite where
  | activation
  | colour
deriving DecidableEq, Repr

/-- What the operating system decides during one run. -/
structure Host where
  /-- Result of `IOHIDManagerOpen`; 0 is `kIOReturnSuccess`. -/
  openResult : Int
  /-- The devices copied out of the manager, in the order of the array. -/
  devices : List IOHIDDevice
  /-- Result of the `IOHIDDeviceSetReport` call made for the device at the
  given index of the array, at the given place of the loop body. -/
  setReportResult : Nat → WriteSite → Int
  /-- Content of the array `report` when the loop body declares it. -/
  uninitialized : Nat → Report

/-- What one run does. -/
structure Outcome where
  /-- Argument of `exit` or value returned by `main`. -/
  status : Int
  calls : List Call
  stdout : List Output
  /-- Last value of the variable `tIOReturn` of `main`, when it was declared. -/
  tIOReturn : Option Int

/-! ## The functions of `main.c` -/

/-- Usage page of generic desktop controls. -/
def kHIDPage_GenericDesktop : Nat := 0x01

/-- Creation of a matching dictionary for a usage page and a usage (the Core
Foundation allocations are taken to succeed). -/
def hu_CreateMatchingDictionaryUsagePageUsage (isDeviceNotElement : Bool)
    (inUsagePage inUsage : Nat) : List (MatchingKey × Nat) :=
  if inUsagePage ≠ 0 then
    let result :=
      if isDeviceNotElement then [(MatchingKey.kIOHIDDeviceUsagePageKey, inUsagePage)]
      else [(MatchingKey.kIOHIDElementUsagePageKey, inUsagePage)]
    if inUsage ≠ 0 then
      if isDeviceNotElement then result ++ [(MatchingKey.kIOHIDDeviceUsageKey, inUsage)]
      else result ++ [(MatchingKey.kIOHIDElementUsageKey, inUsage)]
    else result
  else []

/-- Lookup of a long device property: the Boolean result and the content of
`*outValue` after the call (`outValue` is its content before the call). -/
def IOHIDDevice_GetLongProperty (inDeviceRef : IOHIDDevice) (inKey : PropertyKey)
    (outValue : Int) : Bool × Int :=
  match IOHIDDeviceGetProperty inDeviceRef inKey with
  | none => (false, outValue)
  | some (CFType.number value) => CFNumberGetValue value
  | some CFType.other => (false, outValue)

/-- The test `(r < 0) || (r > 31) || (g < 0) || (g > 31) || (b < 0) || (b > 31)`. -/
def outOfRange (r g b : Int) : Bool :=
  decide (r < 0) || decide (r > 31) || decide (g < 0) || decide (g > 31)
    || decide (b < 0) || decide (b > 31)

/-- The assignments `report[0] = 0x1F; ... report[7] = 0x03;`. -/
def writeActivation (report : Report) : Report :=
  let report := { report with b0 := 0x1F }
  let report := { report with b1 := 0x02 }
  let report := { report with b2 := 0x00 }
  let report := { report with b3 := 0x5F }
  let report := { report with b4 := 0x00 }
  let report := { report with b5 := 0x00 }
  let report := { report with b6 := 0x1A }
  { report with b7 := 0x03 }

/-- The assignments `report[0] = r; report[1] = g; report[2] = b; report[3] = 0x00;
... report[7] = 0x05;`. -/
def writeColour (report : Report) (r g b : Int) : Report :=
  let report := { report with b0 := toUChar r }
  let report := { report with b1 := toUChar g }
  let report := { report with b2 := toUChar b }
  let report := { report with b3 := 0x00 }
  let report := { report with b4 := 0x00 }
  let report := { report with b5 := 0x00 }
  let report := { report with b6 := 0x1A }
  { report with b7 := 0x05 }

/-- The variables of `main` that the device loop changes, with the calls made
and the lines printed so far. -/
structure LoopState where
  initialized : Bool
  tIOReturn : Int
  calls : List Call
  stdout : List Output

/-- One pass through the body of the device loop, for the device at
`deviceIndex`. -/
def loopBody (host : Host) (r g b : Int) (deviceIndex : Nat) (device : IOHIDDevice)
    (s : LoopState) : LoopState :=
  let vendor_id := (IOHIDDevice_GetLongProperty device PropertyKey.kIOHIDVendorIDKey 0).2
  let product_id := (IOHIDDevice_GetLongProperty device PropertyKey.kIOHIDProductIDKey 0).2
  let s : LoopState := { s with calls := s.calls ++
    [Call.deviceGetProperty device.ref PropertyKey.kIOHIDVendorIDKey,
     Call.deviceGetProperty device.ref PropertyKey.kIOHIDProductIDKey] }
  if vendor_id ≠ 0x1D34 ∨ product_id ≠ 0x0004 then
    { s with stdout := s.stdout ++ [Output.skipping device.ref] }
  else
    let s : LoopState := { s with stdout := s.stdout ++ [Output.device device.ref] }
    let report := host.uninitialized deviceIndex
    -- the result of the first write goes to a variable of the inner block
    -- and is dropped
    let p : Report × LoopState :=
      if s.initialized = false then
        (writeActivation report,
         { s with
           calls := s.calls ++ [Call.deviceSetReport device.ref
             IOHIDReportType.kIOHIDReportTypeInput 0 (writeActivation report).bytes 8]
           initialized := true })
      else (report, s)
    let report := writeColour p.1 r g b
    { p.2 with
      calls := p.2.calls ++ [Call.deviceSetReport device.ref
        IOHIDReportType.kIOHIDReportTypeInput 0 report.bytes 8]
      tIOReturn := host.setReportResult deviceIndex WriteSite.colour }

/-- The loop `for ( deviceIndex = 0; deviceIndex < deviceCount; deviceIndex++ )`
over the devices that remain, starting at `deviceIndex`. -/
def deviceLoop (host : Host) (r g b : Int) : List IOHIDDevice → Nat → LoopState → LoopState
  | [], _, s => s
  | device :: rest, deviceIndex, s =>
    deviceLoop host r g b rest (deviceIndex + 1) (loopBody host r g b deviceIndex device s)

/-- The function `main`; `argv` holds the program name and the user's
arguments, and `argc` is its length. -/
def main (host : Host) (argv : List String) : Outcome :=
  let argc := argv.length
  if argc ≠ 4 ∧ argc ≠ 5 then
    -- exit ( -1 )
    { status := -1, calls := [], stdout := [.usage], tIOReturn := none }
  else
    let r := toChar (toInt (strtol (argv.getD 1 "")))
    let g := toChar (toInt (strtol (argv.getD 2 "")))
    let b := toChar (toInt (strtol (argv.getD 3 "")))
    let initialized := decide (argc = 5)
    -- after the message comes the statement `exit -1;`: an expression whose
    -- value is dropped, not a call, so control goes on
    let stdout := if outOfRange r g b then [Output.rangeError] else []
    let calls := [Call.managerCreate,
      Call.managerSetDeviceMatching
        (hu_CreateMatchingDictionaryUsagePageUsage true kHIDPage_GenericDesktop 0x10),
      Call.managerOpen,
      Call.managerCopyDevices]
    let s := deviceLoop host r g b host.devices 0
      { initialized := initialized, tIOReturn := host.openResult, calls := calls,
        stdout := stdout }
    { status := -1, calls := s.calls, stdout := s.stdout, tIOReturn := some s.tIOReturn }

/-! ## Vocabulary of the specification -/

/-- The report writes among the calls of a run, in order: the device written
to and the bytes handed over. -/
def reportWrites : List Call → List (Nat × List Nat)
  | [] => []
  | Call.deviceSetReport device _ _ report _ :: rest => (device, report) :: reportWrites rest
  | _ :: rest => reportWrites rest

/-- The activation report of the specification. -/
def activationReport : List Nat := [0x1F, 0x02, 0x00, 0x5F, 0x00, 0x00, 0x1A, 0x03]

/-- A matched device in the sense of the specification: its identity is the
pair (vendor 0x1D34, product 0x0004). -/
def isNotifier (device : IOHIDDevice) : Bool :=
  decide (device.vendorID = some (CFType.number 0x1D34)) &&
    decide (device.productID = some (CFType.number 0x0004))

/-- A colour channel that meets the input contract. -/
def validChannel (n : Int) : Prop := 0 ≤ n ∧ n ≤ 31

instance (n : Int) : Decidable (validChannel n) :=
  inferInstanceAs (Decidable (0 ≤ n ∧ n ≤ 31))

/-- The signed 8-bit value congruent to `n` modulo 256. -/
def int8Of (n : Int) : Int := if n % 256 < 128 then n % 256 else n % 256 - 256

/-- The report writes a run is expected to make, given the value of
`initialized` on entry to the loop, the colour bytes and the matched devices
in the order of the array. -/
def expectedWrites (initialized : Bool) (colour : List Nat) :
    List IOHIDDevice → List (Nat × List Nat)
  | [] => []
  | m :: rest =>
    (if initialized then [] else [(m.ref, activationReport)]) ++
      (m :: rest).map fun d => (d.ref, colour)

/-! ## Concrete hosts -/

/-- The error code `kIOReturnError` (0xe00002bc) as a signed 32-bit value. -/
def kIOReturnError : Int := -536870212

/-- A notifier with the given handle. -/
def notifier (ref : Nat) : IOHIDDevice :=
  { ref := ref, vendorID := some (CFType.number 0x1D34), productID := some (CFType.number 0x0004) }

/-- A mouse (0x046D, 0xC077) with the given handle. -/
def mouse (ref : Nat) : IOHIDDevice :=
  { ref := ref, vendorID := some (CFType.number 0x046D), productID := some (CFType.number 0xC077) }

/-- A host with a notifier, a mouse and a second notifier, on which every call
succeeds. -/
def exampleHost : Host :=
  { openResult := 0
    devices := [notifier 1, mouse 2, notifier 3]
    setReportResult := fun _ _ => 0
    uninitialized := fun _ => ⟨0, 0, 0, 0, 0, 0, 0, 0⟩ }

/-- A host whose first enumerated device is not a notifier. -/
def mouseFirstHost : Host := { exampleHost with devices := [mouse 1, notifier 2, notifier 3] }

/-- The example host when `IOHIDManagerOpen` reports an error. -/
def failedOpenHost : Host := { exampleHost with openResult := kIOReturnError }

/-- Three notifiers; the colour write to the second one fails. -/
def secondWriteFailsHost : Host :=
  { openResult := 0
    devices := [notifier 1, notifier 2, notifier 3]
    setReportResult := fun i site => if i = 1 ∧ site = WriteSite.colour then kIOReturnError else 0
    uninitialized := fun _ => ⟨0, 0, 0, 0, 0, 0, 0, 0⟩ }

/-- Three notifiers; every report write fails. -/
def allWritesFailHost : Host :=
  { secondWriteFailsHost with setReportResult := fun _ _ => kIOReturnError }

/-! ## Lemmas on the device loop -/

theorem reportWrites_append (xs ys : List Call) :
    reportWrites (xs ++ ys) = reportWrites xs ++ reportWrites ys := by
  induction xs with
  | nil => rfl
  | cons x xs ih => cases x <;> simp [reportWrites, ih]

/-- The test that skips a device fails exactly on the matched devices. -/
theorem skip_test_iff (device : IOHIDDevice) :
    ((IOHIDDevice_GetLongProperty device PropertyKey.kIOHIDVendorIDKey 0).2 ≠ 0x1D34 ∨
      (IOHIDDevice_GetLongProperty device PropertyKey.kIOHIDProductIDKey 0).2 ≠ 0x0004) ↔
    isNotifier device = false := by
  obtain ⟨ref, v, p⟩ := device
  rcases v with _ | v | _ <;> rcases p with _ | p | _ <;>
    simp [IOHIDDevice_GetLongProperty, IOHIDDeviceGetProperty, CFNumberGetValue, isNotifier]
  tauto

theorem writeColour_bytes (report : Report) (r g b : Int) :
    (writeColour report r g b).bytes = [toUChar r, toUChar g, toUChar b, 0, 0, 0, 0x1A, 0x05] := rfl

theorem writeActivation_bytes (report : Report) :
    (writeActivation report).bytes = activationReport := rfl

/-- Effect of one pass of the loop body on the report writes. -/
theorem loopBody_writes (host : Host) (r g b : Int) (i : Nat) (device : IOHIDDevice)
    (s : LoopState) :
    reportWrites (loopBody host r g b i device s).calls =
      reportWrites s.calls ++
        (if isNotifier device then
          (if s.initialized then [] else [(device.ref, activationReport)]) ++
            [(device.ref, [toUChar r, toUChar g, toUChar b, 0, 0, 0, 0x1A, 0x05])]
        else []) := by
  unfold loopBody
  by_cases hm : isNotifier device = true
  · have hk : ¬ ((IOHIDDevice_GetLongProperty device PropertyKey.kIOHIDVendorIDKey 0).2 ≠ 0x1D34 ∨
        (IOHIDDevice_GetLongProperty device PropertyKey.kIOHIDProductIDKey 0).2 ≠ 0x0004) := by
      rw [skip_test_iff]; simp [hm]
    cases hi : s.initialized <;>
      simp [hk, hm, hi, reportWrites_append, reportWrites, writeColour_bytes,
        writeActivation_bytes]
  · have hm2 : isNotifier device = false := by simpa using hm
    have hk : ((IOHIDDevice_GetLongProperty device PropertyKey.kIOHIDVendorIDKey 0).2 ≠ 0x1D34 ∨
        (IOHIDDevice_GetLongProperty device PropertyKey.kIOHIDProductIDKey 0).2 ≠ 0x0004) :=
      (skip_test_iff device).mpr hm2
    simp [hk, hm2, reportWrites_append, reportWrites]

/-- Effect of one pass of the loop body on the variable `initialized`. -/
theorem loopBody_initialized (host : Host) (r g b : Int) (i : Nat) (device : IOHIDDevice)
    (s : LoopState) :
    (loopBody host r g b i device s).initialized = (s.initialized || isNotifier device) := by
  unfold loopBody
  by_cases hm : isNotifier device = true
  · have hk : ¬ ((IOHIDDevice_GetLongProperty device PropertyKey.kIOHIDVendorIDKey 0).2 ≠ 0x1D34 ∨
        (IOHIDDevice_GetLongProperty device PropertyKey.kIOHIDProductIDKey 0).2 ≠ 0x0004) := by
      rw [skip_test_iff]; simp [hm]
    cases hi : s.initialized <;> simp [hk, hm, hi]
  · have hm2 : isNotifier device = false := by simpa using hm
    have hk : ((IOHIDDevice_GetLongProperty device PropertyKey.kIOHIDVendorIDKey 0).2 ≠ 0x1D34 ∨
        (IOHIDDevice_GetLongProperty device PropertyKey.kIOHIDProductIDKey 0).2 ≠ 0x0004) :=
      (skip_test_iff device).mpr hm2
    simp [hk, hm2]

theorem expectedWrites_true (colour : List Nat) (ms : List IOHIDDevice) :
    expectedWrites true colour ms = ms.map fun d => (d.ref, colour) := by
  cases ms <;> simp [expectedWrites]

/-- The report writes of the whole loop. -/
theorem deviceLoop_writes (host : Host) (r g b : Int) (devices : List IOHIDDevice) :
    ∀ (i : Nat) (s : LoopState),
      reportWrites (deviceLoop host r g b devices i s).calls =
        reportWrites s.calls ++
          expectedWrites s.initialized [toUChar r, toUChar g, toUChar b, 0, 0, 0, 0x1A, 0x05]
            (devices.filter isNotifier) := by
  induction devices with
  | nil => intro i s; simp [deviceLoop, expectedWrites]
  | cons d ds ih =>
    intro i s
    rw [deviceLoop, ih, loopBody_writes, loopBody_initialized]
    by_cases hm : isNotifier d = true
    · simp only [hm, Bool.or_true, if_true, expectedWrites_true, List.filter_cons_of_pos]
      cases hi : s.initialized <;> simp [expectedWrites]
    · have hm2 : isNotifier d = false := by simpa using hm
      simp [hm2, List.filter_cons]

/-- The report writes of a run that gets past the argument count test. -/
theorem main_writes (host : Host) (argv : List String)
    (h : argv.length = 4 ∨ argv.length = 5) :
    reportWrites (main host argv).calls =
      expectedWrites (decide (argv.length = 5))
        [toUChar (toChar (toInt (strtol (argv.getD 1 "")))),
         toUChar (toChar (toInt (strtol (argv.getD 2 "")))),
         toUChar (toChar (toInt (strtol (argv.getD 3 "")))), 0, 0, 0, 0x1A, 0x05]
        (host.devices.filter isNotifier) := by
  have h2 : ¬ (argv.length ≠ 4 ∧ argv.length ≠ 5) := by omega
  unfold main
  simp only [h2, if_false]
  rw [deviceLoop_writes]
  simp [reportWrites]

/-- A valid channel survives the two narrowing conversions and the store
into the report unchanged. -/
theorem valid_channel_byte (n : Int) (h : validChannel n) :
    toUChar (toChar (toInt n)) = n.toNat := by
  obtain ⟨h0, h1⟩ := h
  unfold toUChar toChar toInt
  have e1 : (n + 2147483648) % 4294967296 = n + 2147483648 :=
    Int.emod_eq_of_lt (by omega) (by omega)
  rw [e1]
  have e2 : (n + 2147483648 - 2147483648 + 128) % 256 = n + 128 := by
    have : n + 2147483648 - 2147483648 + 128 = n + 128 := by ring
    rw [this]
    exact Int.emod_eq_of_lt (by omega) (by omega)
  rw [e2]
  have e3 : (n + 128 - 128) % 256 = n := by
    have : n + 128 - 128 = n := by ring
    rw [this]
    exact Int.emod_eq_of_lt h0 (by omega)
  rw [e3]

/-- The two narrowing conversions keep the residue modulo 256. -/
theorem narrowed_byte (n : Int) : toUChar (toChar (toInt n)) = (n % 256).toNat := by
  unfold toUChar toChar toInt
  congr 1
  omega

/-- The narrowed channel is the signed 8-bit value of the residue. -/
theorem narrowed_eq_int8Of (n : Int) : toChar (toInt n) = int8Of n := by
  unfold toChar toInt int8Of
  split <;> omega

/-- One pass of the loop body reads the results of the library calls into
`tIOReturn` only: hosts with the same uninitialised arrays, and states that
agree on everything but `tIOReturn`, give states that agree in the same way. -/
theorem loopBody_frame (h1 h2 : Host) (hu : h1.uninitialized = h2.uninitialized)
    (r g b : Int) (i : Nat) (device : IOHIDDevice) (s1 s2 : LoopState)
    (hi : s1.initialized = s2.initialized) (hc : s1.calls = s2.calls)
    (ho : s1.stdout = s2.stdout) :
    (loopBody h1 r g b i device s1).initialized = (loopBody h2 r g b i device s2).initialized ∧
    (loopBody h1 r g b i device s1).calls = (loopBody h2 r g b i device s2).calls ∧
    (loopBody h1 r g b i device s1).stdout = (loopBody h2 r g b i device s2).stdout := by
  unfold loopBody
  simp only [hu, hi, hc, ho]
  split
  · simp
  · cases s2.initialized <;> simp

/-- The whole loop reads the results of the library calls into `tIOReturn`
only. -/
theorem deviceLoop_frame (h1 h2 : Host) (hu : h1.uninitialized = h2.uninitialized)
    (r g b : Int) (devices : List IOHIDDevice) :
    ∀ (i : Nat) (s1 s2 : LoopState), s1.initialized = s2.initialized →
      s1.calls = s2.calls → s1.stdout = s2.stdout →
      (deviceLoop h1 r g b devices i s1).calls = (deviceLoop h2 r g b devices i s2).calls ∧
      (deviceLoop h1 r g b devices i s1).stdout = (deviceLoop h2 r g b devices i s2).stdout := by
  induction devices with
  | nil => intro i s1 s2 _ hc ho; exact ⟨hc, ho⟩
  | cons d ds ih =>
    intro i s1 s2 hi hc ho
    obtain ⟨ki, kc, ko⟩ := loopBody_frame h1 h2 hu r g b i d s1 s2 hi hc ho
    exact ih (i + 1) _ _ ki kc ko

/-- Two hosts with the same devices and the same uninitialised arrays see the
same calls, the same lines and the same exit status, whatever the results of
their library calls are. -/
theorem main_frame (h1 h2 : Host) (hd : h1.devices = h2.devices)
    (hu : h1.uninitialized = h2.uninitialized) (argv : List String) :
    (main h1 argv).calls = (main h2 argv).calls ∧
    (main h1 argv).stdout = (main h2 argv).stdout ∧
    (main h1 argv).status = (main h2 argv).status := by
  unfold main
  by_cases h : argv.length ≠ 4 ∧ argv.length ≠ 5
  · simp [h]
  · simp only [h, if_false, hd]
    obtain ⟨kc, ko⟩ := deviceLoop_frame h1 h2 hu
      (toChar (toInt (strtol (argv.getD 1 "")))) (toChar (toInt (strtol (argv.getD 2 ""))))
      (toChar (toInt (strtol (argv.getD 3 "")))) h2.devices 0
      { initialized := decide (argv.length = 5), tIOReturn := h1.openResult,
        calls := [Call.managerCreate,
          Call.managerSetDeviceMatching
            (hu_CreateMatchingDictionaryUsagePageUsage true kHIDPage_GenericDesktop 0x10),
          Call.managerOpen, Call.managerCopyDevices],
        stdout := if outOfRange (toChar (toInt (strtol (argv.getD 1 ""))))
          (toChar (toInt (strtol (argv.getD 2 "")))) (toChar (toInt (strtol (argv.getD 3 ""))))
          then [Output.rangeError] else [] }
      { initialized := decide (argv.length = 5), tIOReturn := h2.openResult,
        calls := [Call.managerCreate,
          Call.managerSetDeviceMatching
            (hu_CreateMatchingDictionaryUsagePageUsage true kHIDPage_GenericDesktop 0x10),
          Call.managerOpen, Call.managerCopyDevices],
        stdout := if outOfRange (toChar (toInt (strtol (argv.getD 1 ""))))
          (toChar (toInt (strtol (argv.getD 2 "")))) (toChar (toInt (strtol (argv.getD 3 ""))))
          then [Output.rangeError] else [] }
      rfl rfl rfl
    exact ⟨kc, ko, trivial⟩

/-- The range message is printed exactly when the test on the narrowed
channels fires; the lines of the loop are never that message. -/
theorem loopBody_rangeError (host : Host) (r g b : Int) (i : Nat) (device : IOHIDDevice)
    (s : LoopState) :
    Output.rangeError ∈ (loopBody host r g b i device s).stdout ↔
      Output.rangeError ∈ s.stdout := by
  unfold loopBody
  dsimp only
  split
  · simp
  · cases s.initialized <;> simp

theorem deviceLoop_rangeError (host : Host) (r g b : Int) (devices : List IOHIDDevice) :
    ∀ (i : Nat) (s : LoopState),
      Output.rangeError ∈ (deviceLoop host r g b devices i s).stdout ↔
        Output.rangeError ∈ s.stdout := by
  induction devices with
  | nil => intro i s; rfl
  | cons d ds ih => intro i s; rw [deviceLoop, ih, loopBody_rangeError]

theorem main_rangeError (host : Host) (argv : List String)
    (h : argv.length = 4 ∨ argv.length = 5) :
    Output.rangeError ∈ (main host argv).stdout ↔
      outOfRange (toChar (toInt (strtol (argv.getD 1 ""))))
        (toChar (toInt (strtol (argv.getD 2 ""))))
        (toChar (toInt (strtol (argv.getD 3 "")))) = true := by
  have h2 : ¬ (argv.length ≠ 4 ∧ argv.length ≠ 5) := by omega
  unfold main
  simp only [h2, if_false]
  rw [deviceLoop_rangeError]
  split <;> simp_all

/-- The test of `main` in terms of the three channels. -/
theorem outOfRange_iff (r g b : Int) :
    outOfRange r g b = true ↔ ¬ (validChannel r ∧ validChannel g ∧ validChannel b) := by
  unfold outOfRange validChannel
  simp only [Bool.or_eq_true, decide_eq_true_eq]
  omega

/-- Dropping the activation writes from the expected writes leaves one colour
write for every matched device. -/
theorem expectedWrites_filter (initialized : Bool) (colour : List Nat)
    (hc : colour ≠ activationReport) (ms : List IOHIDDevice) :
    (expectedWrites initialized colour ms).filter (fun w => decide (w.2 ≠ activationReport)) =
      ms.map fun d => (d.ref, colour) := by
  have hmap : ∀ l : List IOHIDDevice,
      (l.map fun d => (d.ref, colour)).filter (fun w => decide (w.2 ≠ activationReport)) =
        l.map fun d => (d.ref, colour) := by
    intro l
    rw [List.filter_eq_self]
    intro w hw
    obtain ⟨m, -, rfl⟩ := List.mem_map.mp hw
    simpa using hc
  cases ms with
  | nil => simp [expectedWrites]
  | cons m rest =>
    cases initialized
    · simp only [expectedWrites, Bool.false_eq_true, if_false, List.singleton_append]
      rw [List.filter_cons_of_neg (by simp), hmap]
    · simp only [expectedWrites, if_true, List.nil_append]
      rw [hmap]

/-- The expected writes are at most one activation write to the first matched
device, followed by the colour writes. -/
theorem expectedWrites_mem (initialized : Bool) (colour : List Nat)
    (ms : List IOHIDDevice) (w : Nat × List Nat)
    (hw : w ∈ expectedWrites initialized colour ms) :
    ∃ d ∈ ms, w = (d.ref, activationReport) ∨ w = (d.ref, colour) := by
  cases ms with
  | nil => simp [expectedWrites] at hw
  | cons m rest =>
    unfold expectedWrites at hw
    rcases List.mem_append.mp hw with h | h
    · cases initialized
      · simp only [Bool.false_eq_true, if_false, List.mem_singleton] at h
        exact ⟨m, List.mem_cons_self _ _, Or.inl h⟩
      · simp at h
    · obtain ⟨d, hd, rfl⟩ := List.mem_map.mp h
      exact ⟨d, hd, Or.inr rfl⟩

/-- Every expected write is an activation write or a colour write. -/
theorem expectedWrites_payload (initialized : Bool) (colour : List Nat)
    (ms : List IOHIDDevice) :
    ∀ w ∈ expectedWrites initialized colour ms, w.2 = activationReport ∨ w.2 = colour := by
  intro w hw
  obtain ⟨d, -, h | h⟩ := expectedWrites_mem initialized colour ms w hw
  · left; rw [h]
  · right; rw [h]

/-- Every expected write goes to a matched device. -/
theorem expectedWrites_target (initialized : Bool) (colour : List Nat)
    (ms : List IOHIDDevice) :
    ∀ w ∈ expectedWrites initialized colour ms, w.1 ∈ ms.map fun d => d.ref := by
  intro w hw
  obtain ⟨d, hd, h | h⟩ := expectedWrites_mem initialized colour ms w hw <;>
    exact List.mem_map.mpr ⟨d, hd, by rw [h]⟩

/-! ## The claims -/

/-- C1 (evaluation at the failing input): with R = 32, and likewise with
R = -1, the run prints the range message and then goes on: the HID manager is
created and opened, the devices are copied out and read, and the matched
devices are written to, the colour report carrying the byte 32 (or 255). -/
theorem C1_range_error_does_not_stop_the_run :
    strtol "32" = 32 ∧ strtol "-1" = -1 ∧
    (main exampleHost ["notifier", "32", "0", "0"]).stdout =
      [Output.rangeError, Output.device 1, Output.skipping 2, Output.device 3] ∧
    (main exampleHost ["notifier", "32", "0", "0"]).calls =
      [Call.managerCreate,
       Call.managerSetDeviceMatching
         [(MatchingKey.kIOHIDDeviceUsagePageKey, 1), (MatchingKey.kIOHIDDeviceUsageKey, 16)],
       Call.managerOpen,
       Call.managerCopyDevices,
       Call.deviceGetProperty 1 PropertyKey.kIOHIDVendorIDKey,
       Call.deviceGetProperty 1 PropertyKey.kIOHIDProductIDKey,
       Call.deviceSetReport 1 IOHIDReportType.kIOHIDReportTypeInput 0
         [0x1F, 0x02, 0x00, 0x5F, 0x00, 0x00, 0x1A, 0x03] 8,
       Call.deviceSetReport 1 IOHIDReportType.kIOHIDReportTypeInput 0
         [32, 0, 0, 0x00, 0x00, 0x00, 0x1A, 0x05] 8,
       Call.deviceGetProperty 2 PropertyKey.kIOHIDVendorIDKey,
       Call.deviceGetProperty 2 PropertyKey.kIOHIDProductIDKey,
       Call.deviceGetProperty 3 PropertyKey.kIOHIDVendorIDKey,
       Call.deviceGetProperty 3 PropertyKey.kIOHIDProductIDKey,
       Call.deviceSetReport 3 IOHIDReportType.kIOHIDReportTypeInput 0
         [32, 0, 0, 0x00, 0x00, 0x00, 0x1A, 0x05] 8] ∧
    (main exampleHost ["notifier", "-1", "0", "0"]).stdout =
      [Output.rangeError, Output.device 1, Output.skipping 2, Output.device 3] ∧
    reportWrites (main exampleHost ["notifier", "-1", "0", "0"]).calls =
      [(1, [0x1F, 0x02, 0x00, 0x5F, 0x00, 0x00, 0x1A, 0x03]),
       (1, [255, 0, 0, 0x00, 0x00, 0x00, 0x1A, 0x05]),
       (3, [255, 0, 0, 0x00, 0x00, 0x00, 0x1A, 0x05])] := by
  refine ⟨by decide, by decide, by decide, by decide, by decide, by decide⟩

/-- C2 (evaluation at the failing input): with the fourth argument "0" no
activation report is written, while without a fourth argument one is; the two
write traces differ. -/
theorem C2_zero_fourth_argument_skips_activation :
    strtol "0" = 0 ∧
    reportWrites (main exampleHost ["notifier", "1", "2", "3", "0"]).calls =
      [(1, [1, 2, 3, 0x00, 0x00, 0x00, 0x1A, 0x05]),
       (3, [1, 2, 3, 0x00, 0x00, 0x00, 0x1A, 0x05])] ∧
    reportWrites (main exampleHost ["notifier", "1", "2", "3"]).calls =
      [(1, [0x1F, 0x02, 0x00, 0x5F, 0x00, 0x00, 0x1A, 0x03]),
       (1, [1, 2, 3, 0x00, 0x00, 0x00, 0x1A, 0x05]),
       (3, [1, 2, 3, 0x00, 0x00, 0x00, 0x1A, 0x05])] := by
  refine ⟨by decide, by decide, by decide⟩

/-- C3: with a valid colour and no fourth argument, the report writes of a run
are: nothing when no device is matched; otherwise the activation report to the
first matched device, then the colour report to every matched device in the
order of enumeration. -/
theorem C3_activation_once_then_colour_to_each_match (host : Host) (prog R G B : String)
    (hr : validChannel (strtol R)) (hg : validChannel (strtol G))
    (hb : validChannel (strtol B)) :
    reportWrites (main host [prog, R, G, B]).calls =
      match host.devices.filter isNotifier with
      | [] => []
      | m1 :: rest =>
        (m1.ref, [0x1F, 0x02, 0x00, 0x5F, 0x00, 0x00, 0x1A, 0x03]) ::
          (m1 :: rest).map fun m =>
            (m.ref, [(strtol R).toNat, (strtol G).toNat, (strtol B).toNat,
                     0x00, 0x00, 0x00, 0x1A, 0x05]) := by
  rw [main_writes host [prog, R, G, B] (by simp)]
  simp only [List.getD_cons_succ, List.getD_cons_zero, valid_channel_byte _ hr,
    valid_channel_byte _ hg, valid_channel_byte _ hb]
  cases host.devices.filter isNotifier <;> simp [expectedWrites, activationReport]

/-- C3 at a host with a mouse followed by two notifiers, colour (1, 2, 3): the
activation report goes to the first notifier, not to the mouse. -/
theorem C3_witness :
    validChannel (strtol "1") ∧ validChannel (strtol "2") ∧ validChannel (strtol "3") ∧
    reportWrites (main mouseFirstHost ["notifier", "1", "2", "3"]).calls =
      [(2, [0x1F, 0x02, 0x00, 0x5F, 0x00, 0x00, 0x1A, 0x03]),
       (2, [1, 2, 3, 0x00, 0x00, 0x00, 0x1A, 0x05]),
       (3, [1, 2, 3, 0x00, 0x00, 0x00, 0x1A, 0x05])] :=
  ⟨by decide, by decide, by decide,
    C3_activation_once_then_colour_to_each_match mouseFirstHost "notifier" "1" "2" "3"
      (by decide) (by decide) (by decide)⟩

/-- C4: with a valid colour and a fourth argument that parses to a non-zero
integer, the report writes of a run are exactly one colour report to every
matched device, in the order of enumeration; none of them is the activation
report. -/
theorem C4_nonzero_fourth_argument_only_colour_writes (host : Host)
    (prog R G B A : String)
    (hr : validChannel (strtol R)) (hg : validChannel (strtol G))
    (hb : validChannel (strtol B)) (_hA : strtol A ≠ 0) :
    reportWrites (main host [prog, R, G, B, A]).calls =
      (host.devices.filter isNotifier).map (fun m =>
        (m.ref, [(strtol R).toNat, (strtol G).toNat, (strtol B).toNat,
                 0x00, 0x00, 0x00, 0x1A, 0x05])) ∧
    (∀ w ∈ reportWrites (main host [prog, R, G, B, A]).calls, w.2 ≠ activationReport) ∧
    (reportWrites (main host [prog, R, G, B, A]).calls).length =
      (host.devices.filter isNotifier).length := by
  rw [main_writes host [prog, R, G, B, A] (by simp)]
  simp only [List.getD_cons_succ, List.getD_cons_zero, valid_channel_byte _ hr,
    valid_channel_byte _ hg, valid_channel_byte _ hb, List.length_cons, List.length_nil,
    decide_True, expectedWrites_true]
  refine ⟨trivial, ?_, by simp⟩
  intro w hw
  obtain ⟨m, -, rfl⟩ := List.mem_map.mp hw
  simp [activationReport]

/-- C4 at the example host, colour (1, 2, 3), fourth argument "7". -/
theorem C4_witness :
    strtol "7" ≠ 0 ∧
    reportWrites (main exampleHost ["notifier", "1", "2", "3", "7"]).calls =
      [(1, [1, 2, 3, 0x00, 0x00, 0x00, 0x1A, 0x05]),
       (3, [1, 2, 3, 0x00, 0x00, 0x00, 0x1A, 0x05])] :=
  ⟨by decide,
    (C4_nonzero_fourth_argument_only_colour_writes exampleHost "notifier" "1" "2" "3" "7"
      (by decide) (by decide) (by decide) (by decide)).1⟩

/-- C5: with a valid colour (r, g, b), every report a run writes is the
activation report or the eight bytes [r, g, b, 0x00, 0x00, 0x00, 0x1A, 0x05];
the writes other than the activation write are one such colour report for
every matched device; and the colour assignments give these bytes whether or
not the activation report was written into the array before them. -/
theorem C5_colour_report_bytes (host : Host) (prog R G B : String) (rest : List String)
    (hrest : rest.length ≤ 1)
    (hr : validChannel (strtol R)) (hg : validChannel (strtol G))
    (hb : validChannel (strtol B)) :
    (∀ w ∈ reportWrites (main host (prog :: R :: G :: B :: rest)).calls,
      w.2 = [0x1F, 0x02, 0x00, 0x5F, 0x00, 0x00, 0x1A, 0x03] ∨
      w.2 = [(strtol R).toNat, (strtol G).toNat, (strtol B).toNat,
             0x00, 0x00, 0x00, 0x1A, 0x05]) ∧
    (reportWrites (main host (prog :: R :: G :: B :: rest)).calls).filter
        (fun w => decide (w.2 ≠ activationReport)) =
      (host.devices.filter isNotifier).map (fun m =>
        (m.ref, [(strtol R).toNat, (strtol G).toNat, (strtol B).toNat,
                 0x00, 0x00, 0x00, 0x1A, 0x05])) ∧
    (∀ report : Report,
      (writeColour (writeActivation report) (toChar (toInt (strtol R)))
          (toChar (toInt (strtol G))) (toChar (toInt (strtol B)))).bytes =
        [(strtol R).toNat, (strtol G).toNat, (strtol B).toNat, 0x00, 0x00, 0x00, 0x1A, 0x05] ∧
      (writeColour report (toChar (toInt (strtol R)))
          (toChar (toInt (strtol G))) (toChar (toInt (strtol B)))).bytes =
        [(strtol R).toNat, (strtol G).toNat, (strtol B).toNat,
         0x00, 0x00, 0x00, 0x1A, 0x05]) := by
  have hlen : (prog :: R :: G :: B :: rest).length = 4 ∨
      (prog :: R :: G :: B :: rest).length = 5 := by
    simp only [List.length_cons]; omega
  rw [main_writes host _ hlen]
  simp only [List.getD_cons_succ, List.getD_cons_zero, valid_channel_byte _ hr,
    valid_channel_byte _ hg, valid_channel_byte _ hb, writeColour_bytes]
  refine ⟨?_, ?_, fun _ => ⟨trivial, trivial⟩⟩
  · exact expectedWrites_payload _ _ _
  · exact expectedWrites_filter _ _ (by simp [activationReport]) _

/-- C5 at the example host, colour (31, 0, 16), no fourth argument. -/
theorem C5_witness :
    validChannel (strtol "31") ∧ validChannel (strtol "0") ∧ validChannel (strtol "16") ∧
    (reportWrites (main exampleHost ["notifier", "31", "0", "16"]).calls).filter
        (fun w => decide (w.2 ≠ activationReport)) =
      [(1, [31, 0, 16, 0x00, 0x00, 0x00, 0x1A, 0x05]),
       (3, [31, 0, 16, 0x00, 0x00, 0x00, 0x1A, 0x05])] :=
  ⟨by decide, by decide, by decide,
    (C5_colour_report_bytes exampleHost "notifier" "31" "0" "16" [] (by decide)
      (by decide) (by decide) (by decide)).2.1⟩

/-- C6: in a run that gets past the argument count test, the devices written to
are exactly the enumerated devices whose vendor lookup succeeds with 0x1D34 and
whose product lookup succeeds with 0x0004, in their original order; a device
with a missing or non-numeric property, or with another identity, is not among
them, and the devices after it are still served.  (A property that is a number
is read exactly, as a 32-bit integer.) -/
theorem C6_only_matched_devices_are_written (host : Host) (argv : List String)
    (hargc : argv.length = 4 ∨ argv.length = 5) :
    (∀ d : IOHIDDevice, isNotifier d = true ↔
      (IOHIDDevice_GetLongProperty d PropertyKey.kIOHIDVendorIDKey 0 = (true, 0x1D34) ∧
       IOHIDDevice_GetLongProperty d PropertyKey.kIOHIDProductIDKey 0 = (true, 0x0004))) ∧
    (∀ d : IOHIDDevice, (d.vendorID = none ∨ d.vendorID = some CFType.other ∨
        d.productID = none ∨ d.productID = some CFType.other) → isNotifier d = false) ∧
    ((reportWrites (main host argv).calls).filter
        (fun w => decide (w.2 ≠ activationReport))).map (fun w => w.1) =
      (host.devices.filter isNotifier).map (fun d => d.ref) ∧
    (∀ w ∈ reportWrites (main host argv).calls,
      w.1 ∈ (host.devices.filter isNotifier).map (fun d => d.ref)) ∧
    [notifier 1, mouse 2, notifier 3].filter isNotifier = [notifier 1, notifier 3] := by
  refine ⟨?_, ?_, ?_, ?_, by decide⟩
  · intro d
    obtain ⟨ref, v, p⟩ := d
    rcases v with _ | v | _ <;> rcases p with _ | p | _ <;>
      simp [IOHIDDevice_GetLongProperty, IOHIDDeviceGetProperty, CFNumberGetValue, isNotifier]
  · intro d hd
    obtain ⟨ref, v, p⟩ := d
    rcases hd with h | h | h | h <;> simp only at h <;> subst h <;> simp [isNotifier]
  · rw [main_writes host argv hargc, expectedWrites_filter _ _ (by simp [activationReport])]
    simp [List.map_map]
  · rw [main_writes host argv hargc]
    exact expectedWrites_target _ _ _

/-- C6 at the example host: of the devices 1, 2, 3 the notifiers 1 and 3 are
written to, in that order. -/
theorem C6_witness :
    ((reportWrites (main exampleHost ["notifier", "1", "2", "3"]).calls).filter
        (fun w => decide (w.2 ≠ activationReport))).map (fun w => w.1) = [1, 3] :=
  (C6_only_matched_devices_are_written exampleHost ["notifier", "1", "2", "3"]
    (by decide)).2.2.1

/-- C7 (counterexample): `IOHIDManagerOpen` reports `kIOReturnError`, the input
is valid, and the run still writes the activation report and the colour report
to the matched devices. -/
theorem C7_open_failure_still_writes :
    failedOpenHost.openResult ≠ 0 ∧
    validChannel (strtol "1") ∧ validChannel (strtol "2") ∧ validChannel (strtol "3") ∧
    reportWrites (main failedOpenHost ["notifier", "1", "2", "3"]).calls ≠ [] ∧
    reportWrites (main failedOpenHost ["notifier", "1", "2", "3"]).calls =
      [(1, [0x1F, 0x02, 0x00, 0x5F, 0x00, 0x00, 0x1A, 0x03]),
       (1, [1, 2, 3, 0x00, 0x00, 0x00, 0x1A, 0x05]),
       (3, [1, 2, 3, 0x00, 0x00, 0x00, 0x1A, 0x05])] := by
  refine ⟨by decide, by decide, by decide, by decide, by decide, by decide⟩

/-- C7 (amended): the result of `IOHIDManagerOpen` is stored and never
examined: whatever it is, the run makes the same calls (so the same report
writes, those to the matched devices that the enumeration returns), prints the
same lines and ends with the same status as a run in which the open
succeeds. -/
theorem C7_open_result_is_not_examined (host : Host) (argv : List String) (result : Int) :
    (main { host with openResult := result } argv).calls =
      (main { host with openResult := 0 } argv).calls ∧
    reportWrites (main { host with openResult := result } argv).calls =
      reportWrites (main { host with openResult := 0 } argv).calls ∧
    (main { host with openResult := result } argv).stdout =
      (main { host with openResult := 0 } argv).stdout ∧
    (main { host with openResult := result } argv).status =
      (main { host with openResult := 0 } argv).status := by
  obtain ⟨hc, ho, hs⟩ := main_frame { host with openResult := result }
    { host with openResult := 0 } rfl rfl argv
  exact ⟨hc, by rw [hc], ho, hs⟩

/-- C8: the calls a run makes, and so the sequence of attempted report writes
(device and bytes of each), the lines it prints and its status do not depend
on the results of the individual `IOHIDDeviceSetReport` calls.  With three
matched devices and a failing colour write to the second, the first and the
third still get theirs; when every write fails, the activation report is still
written once only, to the first device. -/
theorem C8_write_results_do_not_change_the_writes (host : Host) (argv : List String)
    (results : Nat → WriteSite → Int) :
    (main { host with setReportResult := results } argv).calls = (main host argv).calls ∧
    reportWrites (main { host with setReportResult := results } argv).calls =
      reportWrites (main host argv).calls ∧
    (main { host with setReportResult := results } argv).status = (main host argv).status ∧
    secondWriteFailsHost.setReportResult 1 WriteSite.colour ≠ 0 ∧
    reportWrites (main secondWriteFailsHost ["notifier", "1", "2", "3"]).calls =
      [(1, [0x1F, 0x02, 0x00, 0x5F, 0x00, 0x00, 0x1A, 0x03]),
       (1, [1, 2, 3, 0x00, 0x00, 0x00, 0x1A, 0x05]),
       (2, [1, 2, 3, 0x00, 0x00, 0x00, 0x1A, 0x05]),
       (3, [1, 2, 3, 0x00, 0x00, 0x00, 0x1A, 0x05])] ∧
    allWritesFailHost.setReportResult 0 WriteSite.activation ≠ 0 ∧
    (main allWritesFailHost ["notifier", "1", "2", "3"]).tIOReturn = some kIOReturnError ∧
    reportWrites (main allWritesFailHost ["notifier", "1", "2", "3"]).calls =
      [(1, [0x1F, 0x02, 0x00, 0x5F, 0x00, 0x00, 0x1A, 0x03]),
       (1, [1, 2, 3, 0x00, 0x00, 0x00, 0x1A, 0x05]),
       (2, [1, 2, 3, 0x00, 0x00, 0x00, 0x1A, 0x05]),
       (3, [1, 2, 3, 0x00, 0x00, 0x00, 0x1A, 0x05])] := by
  obtain ⟨hc, -, hs⟩ := main_frame { host with setReportResult := results } host rfl rfl argv
  exact ⟨hc, by rw [hc], hs, by decide, by decide, by decide, by decide, by decide⟩

/-- C9: the status of every run is -1; when the argument count is neither 4
nor 5 the run ends without a single call into the HID library, having printed
the usage text only. -/
theorem C9_status_is_always_minus_one (host : Host) (argv : List String) :
    (main host argv).status = -1 ∧
    (¬ (argv.length = 4 ∨ argv.length = 5) →
      (main host argv).calls = [] ∧ (main host argv).stdout = [Output.usage]) := by
  unfold main
  by_cases h : argv.length ≠ 4 ∧ argv.length ≠ 5
  · simp [h]
  · simp only [h, if_false, true_and]
    intro h2
    exact absurd (by omega) h

/-- C9 at a run without user arguments and at a run in which every write
succeeds. -/
theorem C9_witness :
    ¬ (["notifier"].length = 4 ∨ ["notifier"].length = 5) ∧
    (main exampleHost ["notifier"]).status = -1 ∧
    (main exampleHost ["notifier"]).calls = [] ∧
    (main exampleHost ["notifier", "1", "2", "3"]).status = -1 :=
  ⟨by decide, (C9_status_is_always_minus_one exampleHost ["notifier"]).1,
    ((C9_status_is_always_minus_one exampleHost ["notifier"]).2 (by decide)).1,
    (C9_status_is_always_minus_one exampleHost ["notifier", "1", "2", "3"]).1⟩

/-- C10: the range test sees the channels after the narrowing to `char`.  For
every run with three user arguments the range message is printed exactly when
the signed 8-bit value congruent to one of the parsed integers modulo 256 lies
outside [0, 31], and every colour report carries the residues modulo 256 of the
parsed integers.  Hence a parsed value 256 + k with 0 ≤ k ≤ 31 is not flagged
and puts the byte k into the report, as the run with R = 256 shows. -/
theorem C10_range_test_after_narrowing (host : Host) (prog R G B : String) :
    (∀ n : Int, -128 ≤ int8Of n ∧ int8Of n ≤ 127 ∧ (256 : Int) ∣ n - int8Of n) ∧
    (Output.rangeError ∈ (main host [prog, R, G, B]).stdout ↔
      ¬ (validChannel (int8Of (strtol R)) ∧ validChannel (int8Of (strtol G)) ∧
         validChannel (int8Of (strtol B)))) ∧
    (∀ w ∈ reportWrites (main host [prog, R, G, B]).calls,
      w.2 = activationReport ∨
      w.2 = [(strtol R % 256).toNat, (strtol G % 256).toNat, (strtol B % 256).toNat,
             0x00, 0x00, 0x00, 0x1A, 0x05]) ∧
    (∀ n : Int, -2147483648 ≤ n → n ≤ 2147483647 →
      (outOfRange (toChar (toInt n)) 0 0 = true ↔ ¬ validChannel (int8Of n)) ∧
      toUChar (toChar (toInt n)) = (n % 256).toNat) ∧
    (∀ k : Int, 0 ≤ k → k ≤ 31 →
      ¬ validChannel (256 + k) ∧ outOfRange (toChar (toInt (256 + k))) 0 0 = false ∧
      toUChar (toChar (toInt (256 + k))) = k.toNat) ∧
    strtol "256" = 256 ∧
    (main exampleHost ["notifier", "256", "0", "0"]).stdout =
      [Output.device 1, Output.skipping 2, Output.device 3] ∧
    reportWrites (main exampleHost ["notifier", "256", "0", "0"]).calls =
      [(1, [0x1F, 0x02, 0x00, 0x5F, 0x00, 0x00, 0x1A, 0x03]),
       (1, [0, 0, 0, 0x00, 0x00, 0x00, 0x1A, 0x05]),
       (3, [0, 0, 0, 0x00, 0x00, 0x00, 0x1A, 0x05])] := by
  refine ⟨?_, ?_, ?_, ?_, ?_, by decide, by decide, by decide⟩
  · intro n
    unfold int8Of
    split <;> omega
  · rw [main_rangeError host _ (by simp), outOfRange_iff]
    simp only [List.getD_cons_succ, List.getD_cons_zero, narrowed_eq_int8Of]
  · rw [main_writes host _ (by simp)]
    simp only [List.getD_cons_succ, List.getD_cons_zero, narrowed_byte]
    exact expectedWrites_payload _ _ _
  · intro n _ _
    refine ⟨?_, narrowed_byte n⟩
    rw [outOfRange_iff, narrowed_eq_int8Of]
    simp [validChannel]
  · intro k h0 h1
    refine ⟨by unfold validChannel; omega, ?_, ?_⟩
    · have hv : validChannel (int8Of (256 + k)) := by
        unfold validChannel int8Of
        split <;> omega
      have := (outOfRange_iff (int8Of (256 + k)) 0 0).not
      simp only [Bool.not_eq_true, not_not] at this
      rw [narrowed_eq_int8Of]
      exact this.mpr ⟨hv, by simp [validChannel], by simp [validChannel]⟩
    · rw [narrowed_byte]
      congr 1
      omega

/-- C10 at the parsed value 261: it is outside [0, 31], the test does not flag
it, and the report gets the byte 5. -/
theorem C10_witness :
    ¬ validChannel (256 + 5) ∧ outOfRange (toChar (toInt (256 + 5))) 0 0 = false ∧
    toUChar (toChar (toInt (256 + 5))) = (5 : Int).toNat :=
  (C10_range_test_after_narrowing exampleHost "notifier" "256" "0" "0").2.2.2.2.1 5
    (by decide) (by decide)

end DreamCheeky
